import Mathlib

/-!
Verification development for the vsync-dispatch scheduler and the sensor
manager of this repository.

Times are nanoseconds (`nsecs_t`, a signed 64-bit integer in the source),
modelled as `Int`; the C++ `%` operator truncates toward zero, so it is
translated as `Int.tmod`.
-/

namespace FixedRateIdealStubTracker

/-- `FixedRateIdealStubTracker::nextAnticipatedVSyncTimeFrom` from
`VSyncDispatchRealtimeTest.cpp`: the period is fixed at 3ms (3000000 ns);
`floor = timePoint % mPeriod; if (floor == 0) return timePoint;
return timePoint - floor + mPeriod;`. -/
def nextAnticipatedVSyncTimeFrom (timePoint : Int) : Int :=
  if timePoint.tmod 3000000 = 0 then timePoint
  else timePoint - timePoint.tmod 3000000 + 3000000

end FixedRateIdealStubTracker

namespace VRRStubTracker

/-- `VRRStubTracker::nextAnticipatedVSyncTimeFrom` from
`VSyncDispatchRealtimeTest.cpp`, with `mPeriod`/`mBase` as installed by
`set_interval`: `normalized_to_base = time_point - mBase;
floor = normalized_to_base % mPeriod; if (floor == 0) return time_point;
return normalized_to_base - floor + mPeriod + mBase;`. -/
def nextAnticipatedVSyncTimeFrom (mPeriod mBase timePoint : Int) : Int :=
  if (timePoint - mBase).tmod mPeriod = 0 then timePoint
  else (timePoint - mBase) - (timePoint - mBase).tmod mPeriod + mPeriod + mBase

end VRRStubTracker

/-- C5: the claim quantifies over every reference time `t`, but for a negative
`t` the truncating `%` makes the tracker overshoot: at `t = -1000000` it
returns `3000000`, although `0` is a multiple of the period with
`t ≤ 0 < 3000000`, so the result is not the smallest such multiple. -/
theorem fixedRateNext_not_least_on_negative :
    FixedRateIdealStubTracker.nextAnticipatedVSyncTimeFrom (-1000000) = 3000000 ∧
    (3000000 : Int) ∣ 0 ∧ (-1000000 : Int) ≤ 0 ∧
    (0 : Int) < FixedRateIdealStubTracker.nextAnticipatedVSyncTimeFrom (-1000000) := by
  decide

/-- C5 (amended: restricted to nonnegative reference times, which is the only
regime the tests exercise): for `0 ≤ t`,
`FixedRateIdealStubTracker::nextAnticipatedVSyncTimeFrom t` is a multiple of
the fixed 3ms period, is at least `t`, is the smallest such multiple, and
equals `t` when `t` is itself a multiple of the period. -/
theorem fixedRateNext_least_multiple (t : Int) (ht : 0 ≤ t) :
    (3000000 : Int) ∣ FixedRateIdealStubTracker.nextAnticipatedVSyncTimeFrom t ∧
    t ≤ FixedRateIdealStubTracker.nextAnticipatedVSyncTimeFrom t ∧
    (∀ m : Int, (3000000 : Int) ∣ m → t ≤ m →
      FixedRateIdealStubTracker.nextAnticipatedVSyncTimeFrom t ≤ m) ∧
    ((3000000 : Int) ∣ t →
      FixedRateIdealStubTracker.nextAnticipatedVSyncTimeFrom t = t) := by
  unfold FixedRateIdealStubTracker.nextAnticipatedVSyncTimeFrom
  rw [Int.tmod_eq_emod ht (by norm_num)]
  refine ⟨?_, ?_, fun m hm hm2 => ?_, fun hd => ?_⟩ <;> split_ifs <;> omega

/-- Witness for `fixedRateNext_least_multiple` at `t = 4000000`. -/
theorem fixedRateNext_least_multiple_witness :
    (0 : Int) ≤ 4000000 ∧
    (3000000 : Int) ∣ FixedRateIdealStubTracker.nextAnticipatedVSyncTimeFrom 4000000 ∧
    (4000000 : Int) ≤ FixedRateIdealStubTracker.nextAnticipatedVSyncTimeFrom 4000000 ∧
    FixedRateIdealStubTracker.nextAnticipatedVSyncTimeFrom 4000000 ≤ 6000000 := by
  have h := fixedRateNext_least_multiple 4000000 (by decide)
  exact ⟨by decide, h.1, h.2.1, h.2.2.1 6000000 (by decide) (by decide)⟩

/-- C6: the claim quantifies over every reference time `t`, but when `t` lies
before the base the truncating `%` makes the tracker overshoot: with
`p = 3000000`, `b = 3000000`, `t = 1000000` it returns `6000000`, although
`3000000` is congruent to `b` modulo `p` with `t ≤ 3000000 < 6000000`, so the
result is not the least such value. -/
theorem vrrNext_not_least_before_base :
    VRRStubTracker.nextAnticipatedVSyncTimeFrom 3000000 3000000 1000000 = 6000000 ∧
    (3000000 : Int) ∣ (3000000 - 3000000) ∧ (1000000 : Int) ≤ 3000000 ∧
    (3000000 : Int) < VRRStubTracker.nextAnticipatedVSyncTimeFrom 3000000 3000000 1000000 := by
  decide

/-- C6 (amended: restricted to reference times at or after the installed base,
which is the only regime the tests exercise): for every period `p > 0`, base
`b`, and reference time `t ≥ b`,
`VRRStubTracker::nextAnticipatedVSyncTimeFrom p b t` returns `r` with `t ≤ r`,
`r ≡ b (mod p)`, `r` the least such value, and `r = t` when `p ∣ (t - b)`;
this holds for any `(p, b)` installed by `set_interval`. -/
theorem vrrNext_least_congruent (p b t : Int) (hp : 0 < p) (hbt : b ≤ t) :
    t ≤ VRRStubTracker.nextAnticipatedVSyncTimeFrom p b t ∧
    p ∣ (VRRStubTracker.nextAnticipatedVSyncTimeFrom p b t - b) ∧
    (∀ m : Int, p ∣ (m - b) → t ≤ m →
      VRRStubTracker.nextAnticipatedVSyncTimeFrom p b t ≤ m) ∧
    (p ∣ (t - b) → VRRStubTracker.nextAnticipatedVSyncTimeFrom p b t = t) := by
  have hn : (0 : Int) ≤ t - b := by omega
  unfold VRRStubTracker.nextAnticipatedVSyncTimeFrom
  rw [Int.tmod_eq_emod hn (le_of_lt hp)]
  have h3 := Int.ediv_add_emod (t - b) p
  have h4 : 0 ≤ (t - b) % p := Int.emod_nonneg (t - b) (by omega)
  have h5 : (t - b) % p < p := Int.emod_lt_of_pos (t - b) hp
  by_cases h : (t - b) % p = 0
  · rw [if_pos h]
    refine ⟨le_refl t, Int.dvd_of_emod_eq_zero h, fun m hm hm2 => hm2, fun _ => rfl⟩
  · rw [if_neg h]
    refine ⟨by omega, ⟨(t - b) / p + 1, by linarith⟩, fun m hm hm2 => ?_, fun hd => ?_⟩
    · obtain ⟨k, hk⟩ := hm
      have hkn : t - b ≤ p * k := by linarith
      have hq : (t - b) / p < k := by
        by_contra hcon
        push_neg at hcon
        have hmono : p * k ≤ p * ((t - b) / p) :=
          mul_le_mul_of_nonneg_left hcon (le_of_lt hp)
        omega
      have hfin : p * ((t - b) / p + 1) ≤ p * k :=
        mul_le_mul_of_nonneg_left (by omega) (le_of_lt hp)
      linarith
    · exact absurd (Int.emod_eq_zero_of_dvd hd) h

/-- Witness for `vrrNext_least_congruent` at `p = 4000000`, `b = 12000000`,
`t = 24000000`. -/
theorem vrrNext_least_congruent_witness :
    (0 : Int) < 4000000 ∧ (12000000 : Int) ≤ 24000000 ∧
    (24000000 : Int) ≤ VRRStubTracker.nextAnticipatedVSyncTimeFrom 4000000 12000000 24000000 ∧
    VRRStubTracker.nextAnticipatedVSyncTimeFrom 4000000 12000000 24000000 = 24000000 := by
  have h := vrrNext_least_congruent 4000000 12000000 24000000 (by decide) (by decide)
  exact ⟨by decide, by decide, h.1, h.2.2.2 (by decide)⟩

/-! ## SensorManager (`src/libs/sensor/SensorManager.cpp`) -/

/-- Result of one `getService("sensorservice")` attempt inside
`SensorManager::waitForSensorService`; `found` carries the connected server,
`failed` carries any `status_t` other than `NO_ERROR`/`NAME_NOT_FOUND`. -/
inductive GetServiceResult where
  | nameNotFound : GetServiceResult
  | found : Nat → GetServiceResult
  | failed : Int → GetServiceResult
deriving DecidableEq

/-- Return value of `SensorManager::waitForSensorService`: `noError` carries
what was stored through the `server` out-parameter (`none` when the caller
passed `nullptr`), `failed` propagates the `getService` error code. -/
inductive WaitResult where
  | noError : Option Nat → WaitResult
  | timedOut : WaitResult
  | failed : Int → WaitResult
deriving DecidableEq

/-- The retry loop of `SensorManager::waitForSensorService`: `i` is the loop
index, the fuel starts at 60 (`for (int i = 0; i < 60; i++)`); `getService`
results are supplied by `f`. -/
def waitLoop (f : Nat → GetServiceResult) (wantServer : Bool) : Nat → Nat → WaitResult
  | _, 0 => .timedOut
  | i, Nat.succ fuel =>
    match f i with
    | .nameNotFound => waitLoop f wantServer (i + 1) fuel
    | .found s => .noError (if wantServer then some s else none)
    | .failed c => .failed c

/-- `SensorManager::waitForSensorService`. -/
def waitForSensorService (f : Nat → GetServiceResult) (wantServer : Bool) : WaitResult :=
  waitLoop f wantServer 0 60

theorem waitLoop_all_notFound (f : Nat → GetServiceResult) (w : Bool) :
    ∀ n i, (∀ j, j < n → f (i + j) = .nameNotFound) → waitLoop f w i n = .timedOut := by
  intro n
  induction n with
  | zero => intro i _; rfl
  | succ n ih =>
    intro i h
    have h0 : f i = .nameNotFound := by simpa using h 0 (Nat.succ_pos n)
    show waitLoop f w i (n + 1) = .timedOut
    rw [waitLoop, h0]
    exact ih (i + 1) (fun j hj => by
      have := h (j + 1) (by omega)
      rwa [show i + (j + 1) = i + 1 + j by omega] at this)

theorem waitLoop_skip (f : Nat → GetServiceResult) (w : Bool) :
    ∀ k n i, (∀ j, j < k → f (i + j) = .nameNotFound) →
      waitLoop f w i (k + n) = waitLoop f w (i + k) n := by
  intro k
  induction k with
  | zero => intro n i _; rw [Nat.zero_add, Nat.add_zero]
  | succ k ih =>
    intro n i h
    have h0 : f i = .nameNotFound := by simpa using h 0 (Nat.succ_pos k)
    rw [show k + 1 + n = (k + n) + 1 by omega, waitLoop, h0]
    rw [ih n (i + 1) (fun j hj => by
      have := h (j + 1) (by omega)
      rwa [show i + (j + 1) = i + 1 + j by omega] at this)]
    rw [show i + 1 + k = i + (k + 1) by omega]

theorem waitLoop_congr (w : Bool) :
    ∀ n i (f g : Nat → GetServiceResult), (∀ j, j < n → f (i + j) = g (i + j)) →
      waitLoop f w i n = waitLoop g w i n := by
  intro n
  induction n with
  | zero => intro i f g _; rfl
  | succ n ih =>
    intro i f g h
    have h0 : f i = g i := by simpa using h 0 (Nat.succ_pos n)
    rw [waitLoop, waitLoop, h0]
    cases g i with
    | nameNotFound =>
      exact ih (i + 1) f g (fun j hj => by
        have := h (j + 1) (by omega)
        rwa [show i + (j + 1) = i + 1 + j by omega] at this)
    | found s => rfl
    | failed c => rfl

/-- C10: `SensorManager::waitForSensorService` makes at most 60 `getService`
attempts (its result only depends on attempts `0..59`): it returns `NO_ERROR`
as soon as an attempt succeeds, storing the connection through the
out-parameter exactly when that pointer is non-null; any error other than
`NAME_NOT_FOUND` is returned immediately; and when all 60 attempts report
`NAME_NOT_FOUND` it returns `TIMED_OUT`. -/
theorem waitForSensorService_spec (f : Nat → GetServiceResult) (wantServer : Bool) :
    ((∀ i, i < 60 → f i = .nameNotFound) →
      waitForSensorService f wantServer = .timedOut) ∧
    (∀ k s, k < 60 → (∀ i, i < k → f i = .nameNotFound) → f k = .found s →
      waitForSensorService f wantServer = .noError (if wantServer then some s else none)) ∧
    (∀ k c, k < 60 → (∀ i, i < k → f i = .nameNotFound) → f k = .failed c →
      waitForSensorService f wantServer = .failed c) ∧
    (∀ g : Nat → GetServiceResult, (∀ i, i < 60 → f i = g i) →
      waitForSensorService f wantServer = waitForSensorService g wantServer) := by
  refine ⟨?_, ?_, ?_, ?_⟩
  · intro h
    exact waitLoop_all_notFound f wantServer 60 0 (fun j hj => by simpa using h j hj)
  · intro k s hk hpre hfk
    unfold waitForSensorService
    rw [show 60 = k + (60 - k) by omega,
      waitLoop_skip f wantServer k (60 - k) 0 (fun j hj => by simpa using hpre j hj)]
    obtain ⟨m, hm⟩ : ∃ m, 60 - k = m + 1 := ⟨60 - k - 1, by omega⟩
    rw [hm, waitLoop]
    simp [hfk]
  · intro k c hk hpre hfk
    unfold waitForSensorService
    rw [show 60 = k + (60 - k) by omega,
      waitLoop_skip f wantServer k (60 - k) 0 (fun j hj => by simpa using hpre j hj)]
    obtain ⟨m, hm⟩ : ∃ m, 60 - k = m + 1 := ⟨60 - k - 1, by omega⟩
    rw [hm, waitLoop]
    simp [hfk]
  · intro g h
    exact waitLoop_congr wantServer 60 0 f g (fun j hj => by simpa using h j hj)

/-- Witness for `waitForSensorService_spec`: two `NAME_NOT_FOUND` attempts
followed by success on attempt 2 yield `NO_ERROR` with the server stored. -/
theorem waitForSensorService_spec_witness :
    waitForSensorService
      (fun i => if i < 2 then .nameNotFound else .found 7) true = .noError (some 7) := by
  have h := (waitForSensorService_spec
      (fun i => if i < 2 then .nameNotFound else .found 7) true).2.1 2 7
      (by omega) (fun i hi => by simp [hi]) (by simp)
  simpa using h

/-- A sensor as seen through `SensorManager`: its handle, string type and
name (the fields `getSensorNameByHandle` reads). -/
structure Sensor where
  handle : Int
  stringType : String
  name : String
deriving DecidableEq

/-- The remote sensor service, reduced to the queries `assertStateLocked`
issues: `getSensorList` and `getRuntimeSensorList`. -/
structure SensorServer where
  sensorList : List Sensor
  runtimeSensorList : List Sensor
deriving DecidableEq

/-- The fields of a `SensorManager` instance that
`sensorManagerDied` / `assertStateLocked` / `getSensorNameByHandle` touch.
`mSensorList` models the malloc-ed snapshot array (`none` = null pointer,
`some` = non-null even when empty, as the source comment requires). -/
structure SensorManagerState where
  mSensorServer : Option SensorServer
  mSensorList : Option (List Sensor)
  mSensors : List Sensor
  mDynamicSensorList : Option (List Sensor)
  mDynamicSensors : List Sensor
  mDeathObserverRegistered : Bool
  mSensorHandleToName : List (Int × String)
  mDeviceId : Int
deriving DecidableEq

/-- `findSensorNameInList` (anonymous namespace of `SensorManager.cpp`):
first sensor in the list with the handle, formatted `<stringType>:<name>`. -/
def findSensorNameInList (handle : Int) (sensorList : List Sensor) : Option String :=
  (sensorList.find? (fun s => s.handle == handle)).map
    (fun s => s.stringType ++ ":" ++ s.name)

/-- Lookup in the `mSensorHandleToName` cache
(`std::unordered_map<int32_t, std::string>::find`). -/
def lookupHandleName (cache : List (Int × String)) (handle : Int) : Option String :=
  (cache.find? (fun kv => kv.1 == handle)).map (fun kv => kv.2)

/-- `SensorManager::getSensorNameByHandle`: cached name if present, else the
static list is searched before the dynamic one, and a hit is memoized. -/
def getSensorNameByHandle (st : SensorManagerState) (handle : Int) :
    Option String × SensorManagerState :=
  match lookupHandleName st.mSensorHandleToName handle with
  | some n => (some n, st)
  | none =>
    match findSensorNameInList handle st.mSensors with
    | some n =>
      (some n, { st with mSensorHandleToName := st.mSensorHandleToName ++ [(handle, n)] })
    | none =>
      match findSensorNameInList handle st.mDynamicSensors with
      | some n =>
        (some n, { st with mSensorHandleToName := st.mSensorHandleToName ++ [(handle, n)] })
      | none => (none, st)

/-- `SensorManager::sensorManagerDied`: clears the server handle, both
snapshot arrays and both sensor vectors (and nothing else). -/
def sensorManagerDied (st : SensorManagerState) : SensorManagerState :=
  { st with mSensorServer := none, mSensorList := none, mSensors := [],
            mDynamicSensorList := none, mDynamicSensors := [] }

/-- `SensorManager::assertStateLocked`: re-initializes when the server handle
is null, or (in the non-flagged variant) when pinging the binder fails;
`srv` is the server `waitForSensorService` connects to, `pingOk` the
`pingBinder` outcome. On init it re-registers a death observer and
repopulates `mSensors`/`mSensorList` from the server (per-device list when
`mDeviceId` is not the default 0). -/
def assertStateLocked (st : SensorManagerState) (srv : SensorServer) (pingOk : Bool) :
    SensorManagerState :=
  if st.mSensorServer = none ∨ pingOk = false then
    let sensors := if st.mDeviceId = 0 then srv.sensorList else srv.runtimeSensorList
    { st with mSensorServer := some srv,
              mDeathObserverRegistered := true,
              mSensors := sensors,
              mSensorList := some sensors }
  else st

/-- The field state a `SensorManager` is born with
(`SensorManager::SensorManager` before its `assertStateLocked` call). -/
def initialManagerState (deviceId : Int) : SensorManagerState :=
  { mSensorServer := none, mSensorList := none, mSensors := [],
    mDynamicSensorList := none, mDynamicSensors := [],
    mDeathObserverRegistered := false, mSensorHandleToName := [],
    mDeviceId := deviceId }

/-- A freshly constructed `SensorManager`: the constructor runs
`assertStateLocked` under its lock. -/
def freshManager (deviceId : Int) (srv : SensorServer) (pingOk : Bool) :
    SensorManagerState :=
  assertStateLocked (initialManagerState deviceId) srv pingOk

/-- C8: `sensorManagerDied` resets the server handle, the static sensor list
and vector, and the dynamic sensor list and vector to null/empty, and the next
`assertStateLocked` (whose server is then null) reconnects to the service,
re-registers a death observer and repopulates the sensor list, leaving every
service-state field equal to that of a freshly constructed manager for the
same device talking to the same server. -/
theorem sensorManagerDied_then_assert (st : SensorManagerState) (srv : SensorServer)
    (pingOk : Bool) :
    (sensorManagerDied st).mSensorServer = none ∧
    (sensorManagerDied st).mSensorList = none ∧
    (sensorManagerDied st).mSensors = [] ∧
    (sensorManagerDied st).mDynamicSensorList = none ∧
    (sensorManagerDied st).mDynamicSensors = [] ∧
    (assertStateLocked (sensorManagerDied st) srv pingOk).mSensorServer = some srv ∧
    (assertStateLocked (sensorManagerDied st) srv pingOk).mDeathObserverRegistered = true ∧
    (assertStateLocked (sensorManagerDied st) srv pingOk).mSensorServer =
      (freshManager st.mDeviceId srv pingOk).mSensorServer ∧
    (assertStateLocked (sensorManagerDied st) srv pingOk).mSensorList =
      (freshManager st.mDeviceId srv pingOk).mSensorList ∧
    (assertStateLocked (sensorManagerDied st) srv pingOk).mSensors =
      (freshManager st.mDeviceId srv pingOk).mSensors ∧
    (assertStateLocked (sensorManagerDied st) srv pingOk).mDynamicSensorList =
      (freshManager st.mDeviceId srv pingOk).mDynamicSensorList ∧
    (assertStateLocked (sensorManagerDied st) srv pingOk).mDynamicSensors =
      (freshManager st.mDeviceId srv pingOk).mDynamicSensors := by
  simp [sensorManagerDied, assertStateLocked, freshManager, initialManagerState]

theorem findSensorNameInList_isSome (handle : Int) (l : List Sensor) :
    (findSensorNameInList handle l).isSome ↔ ∃ s ∈ l, s.handle = handle := by
  unfold findSensorNameInList
  simp [List.find?_isSome]

theorem lookupHandleName_append_self (cache : List (Int × String)) (handle : Int) (n : String)
    (h : lookupHandleName cache handle = none) :
    lookupHandleName (cache ++ [(handle, n)]) handle = some n := by
  unfold lookupHandleName at h ⊢
  have hfind : cache.find? (fun kv => kv.1 == handle) = none := by
    cases hf : cache.find? (fun kv => kv.1 == handle) with
    | none => rfl
    | some kv => rw [hf] at h; simp at h
  rw [List.find?_append, hfind]
  simp

/-- C9: `SensorManager::getSensorNameByHandle` returns a name exactly when the
handle is in the name cache or matches a sensor in the static or dynamic
list; on a cache miss the returned string is `<stringType>:<name>` of the
first sensor with that handle, the static list searched before the dynamic
one; and a successful lookup is memoized, so a later call with the same
handle returns the same string even after both sensor lists change. -/
theorem getSensorNameByHandle_spec (st : SensorManagerState) (handle : Int) :
    ((getSensorNameByHandle st handle).1.isSome ↔
      (lookupHandleName st.mSensorHandleToName handle).isSome ∨
      (∃ s ∈ st.mSensors, s.handle = handle) ∨
      (∃ s ∈ st.mDynamicSensors, s.handle = handle)) ∧
    (lookupHandleName st.mSensorHandleToName handle = none →
      (getSensorNameByHandle st handle).1 =
        (findSensorNameInList handle st.mSensors).or
          (findSensorNameInList handle st.mDynamicSensors)) ∧
    (∀ n, (getSensorNameByHandle st handle).1 = some n →
      ∀ l1 l2,
        (getSensorNameByHandle
          { (getSensorNameByHandle st handle).2 with
              mSensors := l1, mDynamicSensors := l2 } handle).1 = some n) := by
  refine ⟨?_, ?_, ?_⟩
  · unfold getSensorNameByHandle
    cases hc : lookupHandleName st.mSensorHandleToName handle with
    | some n => simp [hc]
    | none =>
      cases hs : findSensorNameInList handle st.mSensors with
      | some n =>
        simp only [hc, hs]
        constructor
        · intro _
          exact Or.inr (Or.inl ((findSensorNameInList_isSome handle st.mSensors).mp
            (by rw [hs]; rfl)))
        · intro _; rfl
      | none =>
        cases hd : findSensorNameInList handle st.mDynamicSensors with
        | some n =>
          simp only [hc, hs, hd]
          constructor
          · intro _
            exact Or.inr (Or.inr ((findSensorNameInList_isSome handle st.mDynamicSensors).mp
              (by rw [hd]; rfl)))
          · intro _; rfl
        | none =>
          simp only [hc, hs, hd]
          constructor
          · intro hfalse; simp at hfalse
          · intro hor
            rcases hor with h1 | h2 | h3
            · simp at h1
            · rw [← findSensorNameInList_isSome handle st.mSensors, hs] at h2; simp at h2
            · rw [← findSensorNameInList_isSome handle st.mDynamicSensors, hd] at h3
              simp at h3
  · intro hc
    unfold getSensorNameByHandle
    rw [hc]
    cases hs : findSensorNameInList handle st.mSensors with
    | some n => simp [hs]
    | none =>
      cases hd : findSensorNameInList handle st.mDynamicSensors with
      | some n => simp [hs, hd]
      | none => simp [hs, hd]
  · intro n hn l1 l2
    unfold getSensorNameByHandle at hn ⊢
    cases hc : lookupHandleName st.mSensorHandleToName handle with
    | some m =>
      rw [hc] at hn
      simp only at hn
      cases hn
      simp [hc]
    | none =>
      rw [hc] at hn
      cases hs : findSensorNameInList handle st.mSensors with
      | some m =>
        rw [hs] at hn
        simp only at hn
        cases hn
        simp only []
        rw [lookupHandleName_append_self st.mSensorHandleToName handle n hc]
      | none =>
        rw [hs] at hn
        cases hd : findSensorNameInList handle st.mDynamicSensors with
        | some m =>
          rw [hd] at hn
          simp only at hn
          cases hn
          simp only []
          rw [lookupHandleName_append_self st.mSensorHandleToName handle n hc]
        | none => rw [hd] at hn; simp at hn

/-- Witness for `getSensorNameByHandle_spec`: a concrete manager whose static
list holds sensor 5 named `android.sensor.accelerometer:acc`, queried twice
with the dynamic list replaced in between. -/
theorem getSensorNameByHandle_spec_witness :
    (getSensorNameByHandle
      { (getSensorNameByHandle
          { initialManagerState 0 with
              mSensors := [⟨5, "android.sensor.accelerometer", "acc"⟩] } 5).2 with
          mSensors := [], mDynamicSensors := [⟨5, "other", "dyn"⟩] } 5).1 =
      some "android.sensor.accelerometer:acc" := by
  have h := (getSensorNameByHandle_spec
      { initialManagerState 0 with
          mSensors := [⟨5, "android.sensor.accelerometer", "acc"⟩] } 5).2.2
      "android.sensor.accelerometer:acc" (by decide) [] [⟨5, "other", "dyn"⟩]
  exact h

/-- One `SensorManager` instance as held by the registry; `instId` is the
allocation identity (`new SensorManager(...)`). -/
structure ManagerInstance where
  instId : Nat
  mOpPackageName : String
  mDeviceId : Int
deriving DecidableEq

/-- The static registry `SensorManager::sPackageInstances` plus a counter
producing fresh allocation identities. -/
structure PackageRegistry where
  sPackageInstances : List (String × ManagerInstance)
  nextId : Nat
deriving DecidableEq

/-- `std::map::find` on `sPackageInstances`. -/
def mapFind (m : List (String × ManagerInstance)) (k : String) : Option ManagerInstance :=
  (m.find? (fun kv => kv.1 == k)).map (fun kv => kv.2)

/-- `std::map::insert`: inserts only when the key is absent; an existing
entry is left untouched. -/
def mapInsert (m : List (String × ManagerInstance)) (k : String) (v : ManagerInstance) :
    List (String × ManagerInstance) :=
  if (mapFind m k).isSome then m else m ++ [(k, v)]

/-- The instance-creation tail of `SensorManager::getInstanceForPackage`
(after the cache check): resolves an empty package name through
`IPermissionController::getPackagesForUid` (modelled by `packagesForUid`),
allocates a new manager, stashes it under the empty name too when the caller
gave none, and stashes it under the resolved name. -/
def createInstanceForPackage (reg : PackageRegistry) (packageName : String) (deviceId : Int)
    (packagesForUid : List String) : ManagerInstance × PackageRegistry :=
  let opPackageName :=
    if packageName = "" then
      match packagesForUid with
      | [] => packageName
      | p :: _ => p
    else packageName
  let m : ManagerInstance := ⟨reg.nextId, opPackageName, deviceId⟩
  let m1 := if packageName = "" then mapInsert reg.sPackageInstances "" m
            else reg.sPackageInstances
  let m2 := mapInsert m1 opPackageName m
  (m, { sPackageInstances := m2, nextId := reg.nextId + 1 })

/-- `SensorManager::getInstanceForPackage`: returns the cached instance when
the package's device association is unchanged, otherwise builds a new one;
`deviceId` models `getDeviceIdForUid` for the calling uid. -/
def getInstanceForPackage (reg : PackageRegistry) (packageName : String) (deviceId : Int)
    (packagesForUid : List String) : ManagerInstance × PackageRegistry :=
  match mapFind reg.sPackageInstances packageName with
  | some m =>
    if m.mDeviceId = deviceId then (m, reg)
    else createInstanceForPackage reg packageName deviceId packagesForUid
  | none => createInstanceForPackage reg packageName deviceId packagesForUid

/-- C7: the claim fails when the device association of a package changes:
after a first call for package `p` on device `0`, a second call for `p` on
device `1` returns a freshly built instance, but `std::map::insert` does not
overwrite, so the registry still stores the first instance — the call does
not return the instance stored under the identity it resolved. -/
theorem getInstanceForPackage_stale_after_device_change :
    mapFind (getInstanceForPackage
        (getInstanceForPackage ⟨[], 0⟩ "p" 0 []).2 "p" 1 []).2.sPackageInstances "p" ≠
      some (getInstanceForPackage
        (getInstanceForPackage ⟨[], 0⟩ "p" 0 []).2 "p" 1 []).1 := by
  decide

theorem mapInsert_keys_nodup (m : List (String × ManagerInstance)) (k : String)
    (v : ManagerInstance) (h : (m.map Prod.fst).Nodup) :
    ((mapInsert m k v).map Prod.fst).Nodup := by
  unfold mapInsert
  cases hf : (mapFind m k).isSome with
  | true => simpa [hf] using h
  | false =>
    rw [if_neg (by simp [hf])]
    rw [List.map_append, List.nodup_append]
    refine ⟨h, by simp, ?_⟩
    intro a ha hb
    simp at hb
    subst hb
    have hnone : m.find? (fun kv => kv.1 == a) = none := by
      cases hf2 : m.find? (fun kv => kv.1 == a) with
      | none => rfl
      | some kv => unfold mapFind at hf; rw [hf2] at hf; simp at hf
    rw [List.find?_eq_none] at hnone
    simp at ha
    obtain ⟨b, hmem⟩ := ha
    have := hnone (a, b) hmem
    simp at this

theorem mapFind_insert_self (m : List (String × ManagerInstance)) (k : String)
    (v : ManagerInstance) (h : mapFind m k = none) :
    mapFind (mapInsert m k v) k = some v := by
  unfold mapInsert
  rw [if_neg (by simp [h])]
  unfold mapFind at h ⊢
  have hnone : m.find? (fun kv => kv.1 == k) = none := by
    cases hf : m.find? (fun kv => kv.1 == k) with
    | none => rfl
    | some kv => rw [hf] at h; simp at h
  rw [List.find?_append, hnone]
  simp

/-- C7 (amended): the registry maps each package name to at most one
instance, and a call returns the registry-stored instance whenever the
package's entry has an unchanged device association (leaving the registry
untouched, so a repeat call returns the same instance) or the package had no
entry yet (fresh insert); but when the device association changed, the
returned fresh instance is not stored — the old entry remains
(`std::map::insert` does not overwrite). -/
theorem getInstanceForPackage_registry_spec (reg : PackageRegistry) (packageName : String)
    (deviceId : Int) (packagesForUid : List String)
    (hkeys : (reg.sPackageInstances.map Prod.fst).Nodup) :
    (((getInstanceForPackage reg packageName deviceId
        packagesForUid).2.sPackageInstances.map Prod.fst).Nodup) ∧
    (∀ m, mapFind reg.sPackageInstances packageName = some m → m.mDeviceId = deviceId →
      (getInstanceForPackage reg packageName deviceId packagesForUid).1 = m ∧
      (getInstanceForPackage reg packageName deviceId packagesForUid).2 = reg) ∧
    (mapFind reg.sPackageInstances packageName = none → packageName ≠ "" →
      mapFind (getInstanceForPackage reg packageName deviceId
          packagesForUid).2.sPackageInstances packageName =
        some (getInstanceForPackage reg packageName deviceId packagesForUid).1) := by
  refine ⟨?_, ?_, ?_⟩
  · unfold getInstanceForPackage
    cases hf : mapFind reg.sPackageInstances packageName with
    | some m =>
      by_cases hdev : m.mDeviceId = deviceId
      · simpa [hdev] using hkeys
      · simp only [hdev, if_false]
        unfold createInstanceForPackage
        by_cases hemp : packageName = ""
        · simp only [hemp, if_true]
          exact mapInsert_keys_nodup _ _ _ (mapInsert_keys_nodup _ _ _ hkeys)
        · simp only [hemp, if_false]
          exact mapInsert_keys_nodup _ _ _ hkeys
    | none =>
      unfold createInstanceForPackage
      by_cases hemp : packageName = ""
      · simp only [hemp, if_true]
        exact mapInsert_keys_nodup _ _ _ (mapInsert_keys_nodup _ _ _ hkeys)
      · simp only [hemp, if_false]
        exact mapInsert_keys_nodup _ _ _ hkeys
  · intro m hm hdev
    unfold getInstanceForPackage
    rw [hm]
    simp [hdev]
  · intro hf hemp
    unfold getInstanceForPackage
    rw [hf]
    unfold createInstanceForPackage
    simp only [hemp, if_false]
    exact mapFind_insert_self _ _ _ hf

/-- Witness for `getInstanceForPackage_registry_spec`: an empty registry,
then package `p` on device `0` — the freshly inserted instance is the one
returned. -/
theorem getInstanceForPackage_registry_spec_witness :
    mapFind (getInstanceForPackage ⟨[], 0⟩ "p" 0 []).2.sPackageInstances "p" =
      some (getInstanceForPackage ⟨[], 0⟩ "p" 0 []).1 := by
  have h := (getInstanceForPackage_registry_spec ⟨[], 0⟩ "p" 0 [] (by decide)).2.2
    (by decide) (by decide)
  exact h

/-! ## Dispatch Engine

The `VSyncDispatchTimerQueue` implementation is not part of the sources here
(only its realtime test is), so the Engine below is modelled from the spec. -/

/-- Modelled from the spec: the argument of `schedule` —
`(workDuration, readyDuration, lastKnownPulse)`. -/
structure ScheduleRequest where
  workDuration : Int
  readyDuration : Int
  lastVsync : Int
deriving DecidableEq

/-- Modelled from the spec: the Engine's mutable state — per registration
slot the pending `(wakeupTime, targetPulseTime)` when `Scheduled` (`none` =
`Disarmed`), plus the single armed Timer deadline (`none` = disarmed). The
`VSyncDispatchTimerQueue` itself is not under the sources. -/
structure EngineState where
  registrations : List (Option (Int × Int))
  armed : Option Int
deriving DecidableEq

/-- Minimum `wakeupTime` across all `Scheduled` registrations. -/
def minWakeup : List (Option (Int × Int)) → Option Int
  | [] => none
  | none :: rest => minWakeup rest
  | some (w, _) :: rest =>
    match minWakeup rest with
    | none => some w
    | some m => some (min w m)

/-- Modelled from the spec: `recomputeNextDeadline` — scans all `Scheduled`
registrations for the minimum `wakeupTime`; disarms if none is `Scheduled`;
re-arms only if nothing is armed or the new minimum moved by at least the
move threshold. -/
def recomputeNextDeadline (moveThreshold : Int) (st : EngineState) : EngineState :=
  match minWakeup st.registrations with
  | none => { st with armed := none }
  | some m =>
    match st.armed with
    | none => { st with armed := some m }
    | some a => if moveThreshold ≤ |m - a| then { st with armed := some m } else st

/-- Modelled from the spec: `schedule` on registration slot `idx` — computes
`earliestVsyncTime = lastKnownPulse + workDuration + readyDuration`, asks the
tracker for the next anticipated pulse from it, sets
`wakeupTime = predictedPulse - workDuration - readyDuration` (overwriting any
pending target), then recomputes the engine deadline. -/
def scheduleCallback (tracker : Int → Int) (moveThreshold : Int) (st : EngineState)
    (idx : Nat) (req : ScheduleRequest) : EngineState :=
  let earliestVsync := req.lastVsync + req.workDuration + req.readyDuration
  let pulse := tracker earliestVsync
  let wakeup := pulse - req.workDuration - req.readyDuration
  recomputeNextDeadline moveThreshold
    { st with registrations := st.registrations.set idx (some (wakeup, pulse)) }

/-- A sequence of `schedule` calls, each naming a registration slot. -/
def applySchedules (tracker : Int → Int) (moveThreshold : Int) :
    EngineState → List (Nat × ScheduleRequest) → EngineState
  | st, [] => st
  | st, (i, req) :: rest =>
    applySchedules tracker moveThreshold (scheduleCallback tracker moveThreshold st i req) rest

/-- Engine right after `registerCallback` registered `n` slots: nothing
scheduled, Timer disarmed. -/
def initialEngine (n : Nat) : EngineState :=
  { registrations := List.replicate n none, armed := none }

/-- The engine-wide deadline invariant: the Timer is disarmed exactly when no
registration is `Scheduled`, and an armed deadline lies within the move
threshold of the minimum `wakeupTime`. -/
def ArmedInv (moveThreshold : Int) (st : EngineState) : Prop :=
  (st.armed = none ↔ minWakeup st.registrations = none) ∧
  (∀ a, st.armed = some a →
    ∃ m, minWakeup st.registrations = some m ∧ |m - a| < moveThreshold)

/-- C1: the exact-equality claim fails under the spec's own move-threshold
rule: with the test's 500us move threshold and an identity tracker, two
schedules of the same slot 100us apart leave the Timer armed at the first
wakeup (1000000) while the minimum `Scheduled` wakeup is 1100000. -/
theorem engine_armed_not_exact_min :
    (applySchedules (fun t => t) 500000 (initialEngine 1)
        [(0, ⟨0, 0, 1000000⟩), (0, ⟨0, 0, 1100000⟩)]).armed = some 1000000 ∧
    minWakeup (applySchedules (fun t => t) 500000 (initialEngine 1)
        [(0, ⟨0, 0, 1000000⟩), (0, ⟨0, 0, 1100000⟩)]).registrations = some 1100000 := by
  decide

theorem minWakeup_replicate_none (n : Nat) : minWakeup (List.replicate n none) = none := by
  induction n with
  | zero => rfl
  | succ n ih => simpa [List.replicate, minWakeup] using ih

theorem recompute_armedInv (moveThreshold : Int) (hth : 0 < moveThreshold)
    (st : EngineState) : ArmedInv moveThreshold (recomputeNextDeadline moveThreshold st) := by
  unfold ArmedInv recomputeNextDeadline
  cases hmin : minWakeup st.registrations with
  | none =>
    refine ⟨by simpa using hmin, ?_⟩
    intro a ha
    simp at ha
  | some m =>
    cases harm : st.armed with
    | none =>
      refine ⟨by simp [hmin], ?_⟩
      intro a ha
      simp at ha
      exact ⟨m, hmin, by simp [← ha, hth]⟩
    | some a0 =>
      dsimp only
      by_cases hmove : moveThreshold ≤ |m - a0|
      · rw [if_pos hmove]
        refine ⟨by simp [hmin], ?_⟩
        intro a ha
        simp at ha
        exact ⟨m, hmin, by simp [← ha, hth]⟩
      · rw [if_neg hmove]
        refine ⟨by simp [harm, hmin], ?_⟩
        intro a ha
        rw [harm] at ha
        cases ha
        exact ⟨m, hmin, by omega⟩

theorem applySchedules_armedInv (tracker : Int → Int) (moveThreshold : Int)
    (hth : 0 < moveThreshold) (events : List (Nat × ScheduleRequest)) :
    ∀ st : EngineState, ArmedInv moveThreshold st →
      ArmedInv moveThreshold (applySchedules tracker moveThreshold st events) := by
  induction events with
  | nil => intro st h; exact h
  | cons e rest ih =>
    intro st h
    exact ih _ (recompute_armedInv moveThreshold hth _)

/-- C1 (amended): for every tracker, every positive move threshold, and every
sequence of `schedule` calls from a freshly registered engine, at most one
Timer deadline is armed (a single `Option` cell) and it is disarmed exactly
when no registration is `Scheduled`; an armed deadline equals the minimum
`wakeupTime` only up to the move threshold — re-arming is skipped when the
minimum moved by less than it, so exact equality does not hold in general. -/
theorem engine_armed_invariant (tracker : Int → Int) (moveThreshold : Int)
    (hth : 0 < moveThreshold) (n : Nat) (events : List (Nat × ScheduleRequest)) :
    ArmedInv moveThreshold (applySchedules tracker moveThreshold (initialEngine n) events) := by
  refine applySchedules_armedInv tracker moveThreshold hth events (initialEngine n) ?_
  unfold ArmedInv initialEngine
  refine ⟨by simpa using minWakeup_replicate_none n, ?_⟩
  intro a ha
  simp at ha

/-- Witness for `engine_armed_invariant`: the two-schedule counter-scenario
still satisfies the amended invariant. -/
theorem engine_armed_invariant_witness :
    (0 : Int) < 500000 ∧
    ArmedInv 500000 (applySchedules (fun t => t) 500000 (initialEngine 1)
      [(0, ⟨0, 0, 1000000⟩), (0, ⟨0, 0, 1100000⟩)]) :=
  ⟨by decide, engine_armed_invariant (fun t => t) 500000 (by decide) 1
    [(0, ⟨0, 0, 1000000⟩), (0, ⟨0, 0, 1100000⟩)]⟩

/-- One client of `RepeatingCallbackReceiver`: its scheduling durations, how
often its callback ran, and the target pulse delivered at each invocation. -/
structure SimClient where
  workDuration : Int
  readyDuration : Int
  invocationCount : Nat
  callbackTimes : List Int
deriving DecidableEq

/-- A realtime-test scenario state: the clients, the Engine, and the tracker
state `σ` (`Unit` for the fixed-rate tracker, period/base for the VRR one). -/
structure SimState (σ : Type) where
  clients : List SimClient
  engine : EngineState
  trk : σ

/-- Modelled from the spec: one Timer firing (`onTimerFired`) followed by the
test driver's reaction. The alarm fires at the armed deadline; every
`Scheduled` registration whose wakeup lies within the group threshold of the
firing is invoked (receiving its target pulse) and becomes `Disarmed`; the
engine re-arms for the next soonest pending target; then each invoked client
that has not finished its iterations runs `onEachFrame` against the tracker
and re-schedules with `lastVsync = deliveredTarget + workDuration +
readyDuration`, exactly as `RepeatingCallbackReceiver::repeatedly_schedule`
does. -/
def fireStep {σ : Type} (groupThreshold moveThreshold : Int) (iterations : Nat)
    (tracker : σ → Int → Int) (onFrame : Int → σ → σ) (st : SimState σ) : SimState σ :=
  match st.engine.armed with
  | none => st
  | some tFire =>
    let due : List (Nat × Int) :=
      (List.range st.clients.length).filterMap (fun i =>
        match st.engine.registrations.getD i none with
        | some (w, p) =>
          if tFire - groupThreshold ≤ w ∧ w ≤ tFire + groupThreshold then some (i, p)
          else none
        | none => none)
    let regs1 := due.foldl (fun rs ip => rs.set ip.1 none) st.engine.registrations
    let clients1 := due.foldl (fun cs ip =>
        match cs.get? ip.1 with
        | some c => cs.set ip.1 { c with invocationCount := c.invocationCount + 1,
                                         callbackTimes := c.callbackTimes ++ [ip.2] }
        | none => cs) st.clients
    let eng1 := recomputeNextDeadline moveThreshold { registrations := regs1, armed := none }
    due.foldl (fun s ip =>
        match s.clients.get? ip.1 with
        | some c =>
          if c.invocationCount < iterations then
            let trk1 := onFrame ip.2 s.trk
            let eng2 := scheduleCallback (tracker trk1) moveThreshold s.engine ip.1
              ⟨c.workDuration, c.readyDuration, ip.2 + c.workDuration + c.readyDuration⟩
            ⟨s.clients, eng2, trk1⟩
          else s
        | none => s)
      ⟨clients1, eng1, st.trk⟩

/-- The scenario start: every client issues its first `schedule` with
`lastVsync = now + workDuration + readyDuration` (the test reads
`systemTime()`, taken as 0 here). -/
def initialSim {σ : Type} (moveThreshold : Int) (tracker : σ → Int → Int)
    (clientSpecs : List (Int × Int)) (trk0 : σ) : SimState σ :=
  let cs := clientSpecs.map (fun wr => ⟨wr.1, wr.2, 0, []⟩)
  let eng := (List.range cs.length).foldl (fun e i =>
      match cs.get? i with
      | some c => scheduleCallback (tracker trk0) moveThreshold e i
          ⟨c.workDuration, c.readyDuration, 0 + c.workDuration + c.readyDuration⟩
      | none => e) (initialEngine cs.length)
  ⟨cs, eng, trk0⟩

/-- Run Timer firings until the Timer is disarmed (all clients done) or the
fuel runs out. -/
def runSim {σ : Type} (groupThreshold moveThreshold : Int) (iterations : Nat)
    (tracker : σ → Int → Int) (onFrame : Int → σ → σ) :
    Nat → SimState σ → SimState σ
  | 0, st => st
  | Nat.succ fuel, st =>
    match st.engine.armed with
    | none => st
    | some _ => runSim groupThreshold moveThreshold iterations tracker onFrame fuel
        (fireStep groupThreshold moveThreshold iterations tracker onFrame st)

/-- The `triple_alarm` scenario: three clients with
`(workDuration, readyDuration)` = `(1500us, 2500us)`, `(0, 0)`, `(1ms, 3ms)`
against the fixed 3ms tracker, the test's 100us group threshold and 500us
move threshold, 20 iterations each. -/
def tripleAlarmRun : SimState Unit :=
  runSim 100000 500000 20
    (fun _ => FixedRateIdealStubTracker.nextAnticipatedVSyncTimeFrom)
    (fun _ u => u) 200
    (initialSim 500000 (fun _ => FixedRateIdealStubTracker.nextAnticipatedVSyncTimeFrom)
      [(1500000, 2500000), (0, 0), (1000000, 3000000)] ())

/-- C2: in the `triple_alarm` scenario each of the three clients is invoked
exactly 20 times over 20 schedule cycles — no missed and no duplicate
invocations — and the Timer ends disarmed. -/
theorem triple_alarm_twenty_each :
    tripleAlarmRun.clients.map SimClient.invocationCount = [20, 20, 20] ∧
    tripleAlarmRun.engine.armed = none := by
  decide

/-- `true` when the list is strictly increasing. -/
def strictlyAscending : List Int → Bool
  | [] => true
  | [_] => true
  | a :: b :: rest => a < b && strictlyAscending (b :: rest)

/-- The mutable period/base pair of `VRRStubTracker`. -/
structure VRRState where
  mPeriod : Int
  mBase : Int
deriving DecidableEq

/-- The `vascillating_vrr` scenario: one client `(1ms, 5ms)`; after every
frame `set_interval(next_vsync_interval += 1ms, last_known)` re-bases the
tracker at the just-delivered target and grows the period by 1ms (from
3ms). -/
def vascillatingRun : SimState VRRState :=
  runSim 100000 500000 20
    (fun ts => VRRStubTracker.nextAnticipatedVSyncTimeFrom ts.mPeriod ts.mBase)
    (fun last ts => ⟨ts.mPeriod + 1000000, last⟩) 100
    (initialSim 500000
      (fun ts => VRRStubTracker.nextAnticipatedVSyncTimeFrom ts.mPeriod ts.mBase)
      [(1000000, 5000000)] ⟨3000000, 0⟩)

/-- C3: in the `vascillating_vrr` scenario — period growing by 1ms after
every cycle, re-based at the last delivered target, each `schedule`
re-querying the tracker — the client is invoked exactly 20 times in 20
schedule cycles, at strictly increasing target pulses (no missed, no
duplicate firings), and the Timer ends disarmed. -/
theorem vascillating_vrr_twenty :
    vascillatingRun.clients.map SimClient.invocationCount = [20] ∧
    vascillatingRun.engine.armed = none ∧
    vascillatingRun.clients.map (fun c => strictlyAscending c.callbackTimes) = [true] := by
  decide

/-- The `fixed_jump` scenario: one client `(1ms, 5ms)`; the period jumps from
3ms to 5ms when the frame counter reaches 10 (`jump_frame_counter++ == 10`),
re-based at the last delivered target. -/
def fixedJumpRun : SimState (VRRState × Nat) :=
  runSim 100000 500000 20
    (fun ts => VRRStubTracker.nextAnticipatedVSyncTimeFrom ts.1.mPeriod ts.1.mBase)
    (fun last ts => (if ts.2 = 10 then ⟨5000000, last⟩ else ts.1, ts.2 + 1)) 100
    (initialSim 500000
      (fun ts => VRRStubTracker.nextAnticipatedVSyncTimeFrom ts.1.mPeriod ts.1.mBase)
      [(1000000, 5000000)] (⟨3000000, 0⟩, 0))

/-- C4: in the `fixed_jump` scenario — period jumping abruptly from 3ms to
5ms at cycle 10 — the client is invoked exactly once per cycle across the
discontinuity, 20 invocations in total at strictly increasing target pulses,
and the Timer ends disarmed. -/
theorem fixed_jump_twenty :
    fixedJumpRun.clients.map SimClient.invocationCount = [20] ∧
    fixedJumpRun.engine.armed = none ∧
    fixedJumpRun.clients.map (fun c => strictlyAscending c.callbackTimes) = [true] := by
  decide
